import Mathlib

/-!
Shallow embedding of the `OverlayMixin` behavior defined in
`src/overlay-mixin.ts` (a lit-element overlay mixin adding show/hide,
outside-click/scroll dismissal, Escape dismissal, a z-index floor and an
ignore-list of element ids).

Modelling decisions, each traceable to the source:
* Handler closures created by `handleHidesOnOutsideClick` /
  `handleHidesOnOutsideEsc` are identified by allocation order
  (`nextHandlerId`); `addEventListener` / `removeEventListener` match
  listeners by function identity, which the ids reproduce.
* Each DOM listener registry the mixin touches — `(this, 'click')`,
  `(document.documentElement, 'click')`, `(this, 'scroll')`,
  `(document.documentElement, 'scroll')`, `(document, 'keyup')`, all at the
  capture phase used by the source — is an explicit duplicate-free list.
* `handleFeatures` defers `handleHidesOnOutsideEsc` / `handleHidesOnOutsideClick`
  behind `setTimeout(..., this._handleFeaturesTimeoutMs)`; the queue of
  timeout callbacks that have been scheduled but have not fired is the FIFO
  list `pendingFeatureTimers`, and `flushFeatureTimers` fires them in order.
* `dispatchEvent` of the cancelable before-shown / before-hidden events is
  modelled by a boolean input saying whether some listener called
  `preventDefault()`; the names of the dispatched events are returned.
* The container's `style.zIndex` declaration is the string the CSSOM
  serializes it to (`""` when unset); `_initialZIndex` is `none` before the
  field is first assigned (TypeScript `undefined`).
-/

namespace MxOverlay

/-- Identity of a JavaScript handler closure, by allocation order. -/
abbrev HandlerId := Nat

/-- `target.addEventListener(type, h, capture)` restricted to one
(target, type, phase) registry: the DOM appends the listener unless the same
function object is already registered, and does nothing when the callback is
`undefined`/`null` (modelled by `none`). -/
def addListener (h? : Option HandlerId) (l : List HandlerId) : List HandlerId :=
  match h? with
  | none => l
  | some h => if h ∈ l then l else l ++ [h]

/-- `target.removeEventListener(type, h, capture)`: removing an
`undefined` callback or a function that is not registered is a no-op. -/
def removeListener (h? : Option HandlerId) (l : List HandlerId) : List HandlerId :=
  match h? with
  | none => l
  | some h => l.erase h

/-- `_overlayMinZIndex`, the private field defaulted to 1000. -/
def overlayMinZIndex : Int := 1000

/-- Models JavaScript `Number(s)` for the strings a z-index style declaration
can hold: the empty string (unset property) converts to 0, an optionally
signed decimal integer numeral converts to its value, and anything else
(such as `"auto"`) is NaN, encoded as `none`. -/
def digitsToNat? (l : List Char) : Option Nat :=
  if l.isEmpty then none
  else if l.all (fun c => '0' ≤ c && c ≤ '9') then
    some (l.foldl (fun acc c => acc * 10 + (c.toNat - '0'.toNat)) 0)
  else none

def jsNumber? (s : String) : Option Int :=
  match s.data with
  | [] => some 0
  | '-' :: rest => (digitsToNat? rest).map (fun n => -(n : Int))
  | '+' :: rest => (digitsToNat? rest).map (fun n => (n : Int))
  | l => (digitsToNat? l).map (fun n => (n : Int))

/-- JavaScript `x < bound` where `x` may be NaN (`none`): every comparison
with NaN is false. -/
def nanLt (x? : Option Int) (bound : Int) : Bool :=
  match x? with
  | none => false
  | some x => decide (x < bound)

/-- One `MxOverlay` instance (the class returned by `OverlayMixin` in
`src/overlay-mixin.ts`): its observable fields, the stored handler
references, the DOM listener registries it touches, and the queue of
pending `handleFeatures` timeout callbacks. -/
structure OverlayState where
  /-- `alwaysOpen` public field. -/
  alwaysOpen : Bool
  /-- `opened` public field. -/
  opened : Bool
  /-- the inherited `hidden` element property toggled by showItem/hideItem. -/
  hidden : Bool
  /-- `_preventCloseOutsideClick` stored closure reference. -/
  preventCloseOutsideClick : Option HandlerId
  /-- `_onCaptureHtmlClick` stored closure reference. -/
  onCaptureHtmlClick : Option HandlerId
  /-- `_escKeyHandler` stored closure reference. -/
  escKeyHandler : Option HandlerId
  /-- the serialized `this.style.zIndex` declaration (`""` when unset). -/
  styleZIndex : String
  /-- `_initialZIndex`; `none` before it is first assigned. -/
  initialZIndex : Option String
  /-- capture-phase `'click'` listeners on `this`. -/
  selfClickListeners : List HandlerId
  /-- capture-phase `'click'` listeners on `document.documentElement`. -/
  docClickListeners : List HandlerId
  /-- capture-phase `'scroll'` listeners on `this`. -/
  selfScrollListeners : List HandlerId
  /-- capture-phase `'scroll'` listeners on `document.documentElement`. -/
  docScrollListeners : List HandlerId
  /-- `'keyup'` listeners on `document`. -/
  docKeyupListeners : List HandlerId
  /-- arguments of `setTimeout` callbacks scheduled by `handleFeatures`
  that have not fired yet, oldest first. -/
  pendingFeatureTimers : List Bool
  /-- next fresh closure identity. -/
  nextHandlerId : HandlerId
deriving DecidableEq, Repr

/-- Assigning `this.style.zIndex = v`.  Assigning the JavaScript value
`undefined` (`none`) stringifies to `"undefined"`, which is not a valid
z-index, so the CSSOM leaves the declaration unchanged; every `some` value
this mixin writes was previously read back from the declaration or is
`"1000"`, both valid serializations, so it is stored verbatim. -/
def setStyleZIndex (v? : Option String) (s : OverlayState) : OverlayState :=
  match v? with
  | none => s
  | some v => { s with styleZIndex := v }

/-- `handleZIndex(show)` from `src/overlay-mixin.ts` lines 119-128. -/
def handleZIndex (showFlag : Bool) (s : OverlayState) : OverlayState :=
  if showFlag then
    let captured := s.styleZIndex
    let s1 := { s with initialZIndex := some captured }
    if nanLt (jsNumber? captured) overlayMinZIndex then
      { s1 with styleZIndex := toString overlayMinZIndex }
    else s1
  else
    setStyleZIndex s.initialZIndex s

/-- `handleHidesOnOutsideClick(show)` from `src/overlay-mixin.ts` lines
134-162: when showing, two fresh closures are created and stored in
`_preventCloseOutsideClick` / `_onCaptureHtmlClick`; then (in either case)
the four click/scroll registries are updated with the currently stored
references, adding when showing and removing otherwise. -/
def handleHidesOnOutsideClick (showFlag : Bool) (s : OverlayState) : OverlayState :=
  let s :=
    if showFlag then
      { s with
          preventCloseOutsideClick := some s.nextHandlerId
          onCaptureHtmlClick := some (s.nextHandlerId + 1)
          nextHandlerId := s.nextHandlerId + 2 }
    else s
  if showFlag then
    { s with
        selfClickListeners := addListener s.preventCloseOutsideClick s.selfClickListeners
        docClickListeners := addListener s.onCaptureHtmlClick s.docClickListeners
        selfScrollListeners := addListener s.preventCloseOutsideClick s.selfScrollListeners
        docScrollListeners := addListener s.onCaptureHtmlClick s.docScrollListeners }
  else
    { s with
        selfClickListeners := removeListener s.preventCloseOutsideClick s.selfClickListeners
        docClickListeners := removeListener s.onCaptureHtmlClick s.docClickListeners
        selfScrollListeners := removeListener s.preventCloseOutsideClick s.selfScrollListeners
        docScrollListeners := removeListener s.onCaptureHtmlClick s.docScrollListeners }

/-- `handleHidesOnOutsideEsc(show)` from `src/overlay-mixin.ts` lines
168-175: showing creates a fresh `_escKeyHandler` closure and registers it
on `document`; hiding removes whatever `_escKeyHandler` currently holds. -/
def handleHidesOnOutsideEsc (showFlag : Bool) (s : OverlayState) : OverlayState :=
  if showFlag then
    let h := s.nextHandlerId
    { s with
        escKeyHandler := some h
        docKeyupListeners := addListener (some h) s.docKeyupListeners
        nextHandlerId := h + 1 }
  else
    { s with docKeyupListeners := removeListener s.escKeyHandler s.docKeyupListeners }

/-- `handleFeatures(show)` from `src/overlay-mixin.ts` lines 105-113:
`handleZIndex` runs synchronously; the Escape and outside-click handling is
deferred behind `setTimeout(..., this._handleFeaturesTimeoutMs)`, modelled
by appending the argument to the pending-timer queue. -/
def handleFeatures (showFlag : Bool) (s : OverlayState) : OverlayState :=
  let s1 := handleZIndex showFlag s
  { s1 with pendingFeatureTimers := s1.pendingFeatureTimers ++ [showFlag] }

/-- The body of the `setTimeout` callback scheduled by `handleFeatures`. -/
def runFeatureTimer (showFlag : Bool) (s : OverlayState) : OverlayState :=
  handleHidesOnOutsideClick showFlag (handleHidesOnOutsideEsc showFlag s)

/-- Fire every pending `handleFeatures` timeout callback, in FIFO order. -/
def flushFeatureTimers (s : OverlayState) : OverlayState :=
  s.pendingFeatureTimers.foldl (fun t b => runFeatureTimer b t)
    { s with pendingFeatureTimers := [] }

/-- `showItem()` from `src/overlay-mixin.ts` lines 87-90. -/
def showItem (s : OverlayState) : OverlayState :=
  { s with hidden := false, opened := true }

/-- `hideItem()` from `src/overlay-mixin.ts` lines 95-98. -/
def hideItem (s : OverlayState) : OverlayState :=
  { s with hidden := true, opened := false }

/-- `show()` from `src/overlay-mixin.ts` lines 52-60, parameterized by
whether a listener of the cancelable `mx-overlay-before-shown` event called
`preventDefault()`.  Returns the new state together with the names of the
events dispatched, in order. -/
def showWith (canceled : Bool) (s : OverlayState) : OverlayState × List String :=
  if canceled then (s, ["mx-overlay-before-shown"])
  else
    let s1 := showItem s
    let s2 := handleFeatures (!s1.alwaysOpen) s1
    (s2, ["mx-overlay-before-shown", "mx-overlay-shown"])

/-- `hide()` from `src/overlay-mixin.ts` lines 66-74, parameterized by
whether a listener of the cancelable `overlay-before-hidden` event called
`preventDefault()`. -/
def hideWith (canceled : Bool) (s : OverlayState) : OverlayState × List String :=
  if canceled then (s, ["overlay-before-hidden"])
  else
    let s1 := hideItem s
    let s2 := handleFeatures false s1
    (s2, ["overlay-before-hidden", "overlay-hidden"])

/-- `show()` on the ordinary (uncanceled) path. -/
def showOverlay (s : OverlayState) : OverlayState := (showWith false s).1

/-- `hide()` on the ordinary (uncanceled) path. -/
def hideOverlay (s : OverlayState) : OverlayState := (hideWith false s).1

/-- `disconnectedCallback()` from `src/overlay-mixin.ts` lines 212-216
(the `super` call does not touch any modelled field). -/
def disconnectedCallback (s : OverlayState) : OverlayState :=
  handleFeatures false s

/-- `Set<string>.add`, as an insertion-ordered duplicate-free list. -/
def setAdd (x : String) (l : List String) : List String :=
  if x ∈ l then l else l ++ [x]

/-- `overlayToIgnore(...elementIds)` from `src/overlay-mixin.ts` lines
76-82: each truthy (non-empty) id is added to `_overlayToIgnore`, in
argument order. -/
def overlayToIgnore (elementIds : List String) (ignore : List String) : List String :=
  match elementIds with
  | [] => ignore
  | id :: rest => overlayToIgnore rest (if id ≠ "" then setAdd id ignore else ignore)

/-- The `_overlayToIgnore` set produced by a sequence of `overlayToIgnore`
calls starting from the initial empty set. -/
def builtIgnore (calls : List (List String)) : List String :=
  calls.foldl (fun acc ids => overlayToIgnore ids acc) []

/-- One entry of the nonstandard `event.path` array; `id` is `""` when the
entry has no (or an empty) `id` property, which is falsy in JavaScript. -/
structure PathElem where
  id : String
deriving DecidableEq, Repr

/-- The projection of a DOM event used by the dismissal check:
`path` is the nonstandard `event.path` (absent, i.e. `undefined`, in
browsers that do not expose it — modelled by `none`); `targetAncestors` is
the chain `event.target.parentNode`, `…parentNode.parentNode`, … ending
before `null`, each node named by a `Nat` identity.  It is `[]` when
`event.target` is null or has no parent (the source reads
`event.target?.parentNode` and `undefined != null` is false). -/
structure DomEvent where
  path : Option (List PathElem)
  targetAncestors : List Nat
deriving DecidableEq, Repr

/-- The `while (node != null)` ancestor walk of `isElementContained`. -/
def walkParents (parent : Nat) : List Nat → Bool
  | [] => false
  | n :: rest => if n = parent then true else walkParents parent rest

/-- `isElementContained(parent, event)` from `src/overlay-mixin.ts` lines
201-210: walk the parent chain of `event.target`, starting at
`event.target?.parentNode`, and report whether `parent` appears. -/
def isElementContained (parent : Nat) (event : DomEvent) : Bool :=
  walkParents parent event.targetAncestors

/-- The `for (const element of event.path)` loop body of
`isElementAllowed`: stop with `true` at the first entry whose id is truthy
and registered in the ignore set. -/
def scanIgnoreList (ignore : List String) : List PathElem → Bool
  | [] => false
  | el :: rest =>
    if el.id ≠ "" ∧ el.id ∈ ignore then true
    else scanIgnoreList ignore rest

/-- `isElementAllowed(parent, event)` from `src/overlay-mixin.ts` lines
184-194.  When `_overlayToIgnore` is nonempty the source iterates
`event.path`; if `event.path` is `undefined` the `for…of` throws a
TypeError, modelled by `Except.error`.  Otherwise the ignore-list scan may
return `true`, else the call falls through to `isElementContained`. -/
def isElementAllowed (ignore : List String) (parent : Nat) (event : DomEvent) :
    Except String Bool :=
  if ignore.length > 0 then
    match event.path with
    | none => .error "TypeError: event.path is not iterable"
    | some p =>
      if scanIgnoreList ignore p then .ok true
      else .ok (isElementContained parent event)
  else .ok (isElementContained parent event)

/-- A freshly constructed overlay instance (field initializers of
`MxOverlay`) whose container is rendered hidden, with the given
`alwaysOpen` flag and initial `style.zIndex` serialization. -/
def initState (alwaysOpen : Bool) (zIndex : String) : OverlayState :=
  { alwaysOpen := alwaysOpen
    opened := false
    hidden := true
    preventCloseOutsideClick := none
    onCaptureHtmlClick := none
    escKeyHandler := none
    styleZIndex := zIndex
    initialZIndex := none
    selfClickListeners := []
    docClickListeners := []
    selfScrollListeners := []
    docScrollListeners := []
    docKeyupListeners := []
    pendingFeatureTimers := []
    nextHandlerId := 0 }

/-- The observable state named by the teardown property: the attached
listeners, the z-index declaration and the `opened` flag. -/
def observable (s : OverlayState) :
    List HandlerId × List HandlerId × List HandlerId × List HandlerId ×
      List HandlerId × String × Bool :=
  (s.selfClickListeners, s.docClickListeners, s.selfScrollListeners,
   s.docScrollListeners, s.docKeyupListeners, s.styleZIndex, s.opened)

/-! ### Helper lemmas -/

theorem runFeatureTimer_styleZIndex (b : Bool) (s : OverlayState) :
    (runFeatureTimer b s).styleZIndex = s.styleZIndex := by
  cases b <;> rfl

theorem runFeatureTimer_initialZIndex (b : Bool) (s : OverlayState) :
    (runFeatureTimer b s).initialZIndex = s.initialZIndex := by
  cases b <;> rfl

theorem runFeatureTimer_opened (b : Bool) (s : OverlayState) :
    (runFeatureTimer b s).opened = s.opened := by
  cases b <;> rfl

theorem foldTimers_styleZIndex (l : List Bool) (s : OverlayState) :
    (l.foldl (fun t b => runFeatureTimer b t) s).styleZIndex = s.styleZIndex := by
  induction l generalizing s with
  | nil => rfl
  | cons b rest ih =>
    simpa [List.foldl, runFeatureTimer_styleZIndex] using ih (runFeatureTimer b s)

theorem foldTimers_initialZIndex (l : List Bool) (s : OverlayState) :
    (l.foldl (fun t b => runFeatureTimer b t) s).initialZIndex = s.initialZIndex := by
  induction l generalizing s with
  | nil => rfl
  | cons b rest ih =>
    simpa [List.foldl, runFeatureTimer_initialZIndex] using ih (runFeatureTimer b s)

theorem flushFeatureTimers_styleZIndex (s : OverlayState) :
    (flushFeatureTimers s).styleZIndex = s.styleZIndex :=
  foldTimers_styleZIndex s.pendingFeatureTimers _

theorem flushFeatureTimers_initialZIndex (s : OverlayState) :
    (flushFeatureTimers s).initialZIndex = s.initialZIndex :=
  foldTimers_initialZIndex s.pendingFeatureTimers _

theorem handleZIndex_true_initialZIndex (s : OverlayState) :
    (handleZIndex true s).initialZIndex = some s.styleZIndex := by
  cases h : nanLt (jsNumber? s.styleZIndex) overlayMinZIndex <;> simp [handleZIndex, h]

/-- `hide()` restores `style.zIndex` from `_initialZIndex` (an `undefined`
snapshot leaves the declaration alone). -/
theorem hideOverlay_styleZIndex (s : OverlayState) :
    (hideOverlay s).styleZIndex =
      match s.initialZIndex with
      | none => s.styleZIndex
      | some w => w := by
  cases h : s.initialZIndex <;>
    simp [hideOverlay, hideWith, handleFeatures, handleZIndex, hideItem, setStyleZIndex, h]

theorem walkParents_iff {parent : Nat} {l : List Nat} :
    walkParents parent l = true ↔ parent ∈ l := by
  induction l with
  | nil => simp [walkParents]
  | cons n rest ih =>
    by_cases h : n = parent
    · simp [walkParents, h]
    · rw [walkParents, if_neg h, ih, List.mem_cons]
      constructor
      · exact Or.inr
      · rintro (rfl | hm)
        · exact absurd rfl h
        · exact hm

theorem walkParents_eq_false {parent : Nat} {l : List Nat} (h : parent ∉ l) :
    walkParents parent l = false := by
  cases hb : walkParents parent l with
  | false => rfl
  | true => exact absurd (walkParents_iff.mp hb) h

theorem mem_setAdd {y x : String} {l : List String} :
    y ∈ setAdd x l ↔ y ∈ l ∨ y = x := by
  unfold setAdd
  split
  · rename_i hx
    constructor
    · exact Or.inl
    · rintro (h | rfl)
      exacts [h, hx]
  · simp

theorem overlayToIgnore_no_empty :
    ∀ (ids l : List String), "" ∉ l → "" ∉ overlayToIgnore ids l := by
  intro ids
  induction ids with
  | nil => intro l h; simpa [overlayToIgnore] using h
  | cons i rest ih =>
    intro l h
    rw [overlayToIgnore]
    apply ih
    by_cases hi : i = ""
    · simpa [hi] using h
    · intro hmem
      rcases mem_setAdd.mp (by simpa [hi] using hmem) with hm | hm
      · exact h hm
      · exact hi hm.symm

theorem builtIgnore_no_empty (calls : List (List String)) : "" ∉ builtIgnore calls := by
  unfold builtIgnore
  have : ∀ (cs : List (List String)) (acc : List String), "" ∉ acc →
      "" ∉ cs.foldl (fun a ids => overlayToIgnore ids a) acc := by
    intro cs
    induction cs with
    | nil => intro acc h; simpa using h
    | cons c rest ih =>
      intro acc h
      exact ih _ (overlayToIgnore_no_empty c acc h)
  exact this calls [] (by simp)

theorem scanIgnoreList_of_mem {ignore : List String} {r : String}
    (hr : r ∈ ignore) (hne : r ≠ "") :
    ∀ {p : List PathElem}, (∃ el ∈ p, el.id = r) → scanIgnoreList ignore p = true := by
  intro p hp
  induction p with
  | nil => rcases hp with ⟨el, h, _⟩; cases h
  | cons el rest ih =>
    rcases hp with ⟨e, he, heid⟩
    rcases List.mem_cons.mp he with rfl | h
    · rw [scanIgnoreList, if_pos ⟨heid ▸ hne, heid ▸ hr⟩]
    · by_cases hc : el.id ≠ "" ∧ el.id ∈ ignore
      · rw [scanIgnoreList, if_pos hc]
      · rw [scanIgnoreList, if_neg hc]
        exact ih ⟨e, h, heid⟩

theorem removeListener_idem {h? : Option HandlerId} {l : List HandlerId}
    (hl : l.Nodup) :
    removeListener h? (removeListener h? l) = removeListener h? l := by
  cases h? with
  | none => rfl
  | some h =>
    simp only [removeListener]
    exact List.erase_of_not_mem fun hm => ((hl.mem_erase_iff).mp hm).1 rfl

/-! ### Claim theorems -/

/-- C2: if a listener cancels the before-shown notification, `show()` leaves
the whole state unchanged (so `opened` stays false, the container stays
hidden, nothing is armed and no timer is scheduled) and dispatches only the
before-shown notification; symmetrically for `hide()` and before-hidden. -/
theorem cancellation_leaves_state_unchanged (s : OverlayState) :
    showWith true s = (s, ["mx-overlay-before-shown"]) ∧
    hideWith true s = (s, ["overlay-before-hidden"]) :=
  ⟨rfl, rfl⟩

/-- C2 witness at a concrete armed-looking state. -/
theorem cancellation_leaves_state_unchanged_witness :
    showWith true (initState false "auto") = (initState false "auto", ["mx-overlay-before-shown"]) ∧
    hideWith true (initState false "auto") = (initState false "auto", ["overlay-before-hidden"]) :=
  cancellation_leaves_state_unchanged (initState false "auto")

/-- C4: `isElementAllowed` is not total — with a nonempty ignore set and an
event whose `event.path` is absent, the `for…of` iteration throws a
TypeError instead of falling through to the containment check; with an
empty ignore set the same event is handled without error. -/
theorem isElementAllowed_crashes_on_absent_path :
    isElementAllowed ["menu-trigger"] 0 { path := none, targetAncestors := [] } =
      Except.error "TypeError: event.path is not iterable" ∧
    isElementAllowed [] 0 { path := none, targetAncestors := [] } = Except.ok false :=
  ⟨rfl, rfl⟩

/-- C1 counterexample: arming is not idempotent.  After a first `show()`
whose feature timer has fired, one Escape `keyup` listener is attached; a
re-entrant `show()` (again with its timer fired) leaves two attached
`keyup` listeners, so the second `show()` did add listeners. -/
theorem listener_invariant_counterexample :
    (flushFeatureTimers (showOverlay (flushFeatureTimers (showOverlay
        (initState false ""))))).docKeyupListeners.length = 2 ∧
    (flushFeatureTimers (showOverlay (initState false ""))).docKeyupListeners.length = 1 := by
  decide

/-- C1 (amended): once the deferred feature timers have fired, a first
`show()` attaches the outside-interaction and Escape listeners exactly when
`alwaysOpen` is false, and `hide()` detaches them all; but arming is not
idempotent: a re-entrant `show()` creates fresh handler closures and
attaches an additional set of listeners, the earlier set staying attached
with its stored references overwritten. -/
theorem listener_invariant_amended :
    (flushFeatureTimers (showOverlay (initState false ""))).opened = true ∧
    (flushFeatureTimers (showOverlay (initState false ""))).docKeyupListeners.length = 1 ∧
    (flushFeatureTimers (showOverlay (initState false ""))).selfClickListeners.length = 1 ∧
    (flushFeatureTimers (showOverlay (initState false ""))).docClickListeners.length = 1 ∧
    (flushFeatureTimers (showOverlay (initState false ""))).selfScrollListeners.length = 1 ∧
    (flushFeatureTimers (showOverlay (initState false ""))).docScrollListeners.length = 1 ∧
    (flushFeatureTimers (hideOverlay (flushFeatureTimers (showOverlay
        (initState false ""))))).opened = false ∧
    observable (flushFeatureTimers (hideOverlay (flushFeatureTimers (showOverlay
        (initState false ""))))) = ([], [], [], [], [], "", false) ∧
    (flushFeatureTimers (showOverlay (initState true ""))).opened = true ∧
    observable (flushFeatureTimers (showOverlay (initState true ""))) =
      ([], [], [], [], [], "", true) ∧
    (flushFeatureTimers (showOverlay (flushFeatureTimers (showOverlay
        (initState false ""))))).docKeyupListeners.length = 2 ∧
    (flushFeatureTimers (showOverlay (flushFeatureTimers (showOverlay
        (initState false ""))))).docClickListeners.length = 2 :=
  ⟨rfl, rfl, rfl, rfl, rfl, rfl, rfl, rfl, rfl, rfl, rfl, rfl⟩

/-- C3: contrary to the claim, the disarm path is deferred.  Immediately
after `hide()` (or `disconnectedCallback()`) returns on an armed overlay,
the Escape `keyup` listener and the outside click/scroll listeners are
still attached and a `handleFeatures` timeout is pending; they are removed
only once the deferred callback fires. -/
theorem disarm_deferred_behind_timer :
    (hideOverlay (flushFeatureTimers (showOverlay (initState false "")))).docKeyupListeners = [0] ∧
    (hideOverlay (flushFeatureTimers (showOverlay (initState false "")))).docClickListeners = [2] ∧
    (hideOverlay (flushFeatureTimers (showOverlay
        (initState false "")))).pendingFeatureTimers = [false] ∧
    (disconnectedCallback (flushFeatureTimers (showOverlay
        (initState false "")))).docKeyupListeners = [0] ∧
    (flushFeatureTimers (hideOverlay (flushFeatureTimers (showOverlay
        (initState false ""))))).docKeyupListeners = [] := by
  decide

/-- C5: a `show()`/`hide()` cycle (neither notification canceled, deferred
timers fired in between and afterwards) restores `style.zIndex` to exactly
the value it held before `show()`, for every initial value and either
`alwaysOpen` setting. -/
theorem zindex_round_trip (b : Bool) (v : String) :
    (flushFeatureTimers (hideOverlay (flushFeatureTimers (showOverlay
        (initState b v))))).styleZIndex = v := by
  rw [flushFeatureTimers_styleZIndex, hideOverlay_styleZIndex,
    flushFeatureTimers_initialZIndex, flushFeatureTimers_styleZIndex]
  cases b with
  | false =>
    have hinit : (showOverlay (initState false v)).initialZIndex = some v := by
      simpa [showOverlay, showWith, handleFeatures, showItem, initState] using
        handleZIndex_true_initialZIndex
          { initState false v with hidden := false, opened := true }
    rw [hinit]
  | true =>
    rfl

/-- C5 witness at the concrete non-numeric value `"auto"`. -/
theorem zindex_round_trip_witness :
    (flushFeatureTimers (hideOverlay (flushFeatureTimers (showOverlay
        (initState false "auto"))))).styleZIndex = "auto" :=
  zindex_round_trip false "auto"

/-- C6 counterexample: with the container at z-index `"auto"` and the
default floor 1000, `show()` does not set the declaration to `"1000"` —
`Number("auto")` is NaN, the `NaN < 1000` comparison is false, and the
floor branch is skipped. -/
theorem auto_zindex_counterexample :
    (showOverlay (initState false "auto")).styleZIndex ≠ "1000" := by
  decide

/-- C6 (amended): at z-index `"auto"` with floor 1000, `show()` leaves the
declaration at `"auto"` (non-numeric values never take the floor, since
`Number("auto")` is NaN and NaN compares false) and `hide()` restores
`"auto"`; the floor is applied only to values that parse numerically below
it, e.g. the unset declaration `""` becomes `"1000"`. -/
theorem auto_zindex_amended :
    (showOverlay (initState false "auto")).styleZIndex = "auto" ∧
    (hideOverlay (showOverlay (initState false "auto"))).styleZIndex = "auto" ∧
    jsNumber? "auto" = none ∧
    (showOverlay (initState false "")).styleZIndex = "1000" := by
  decide

/-- C7: ignore-list precedence.  For every ignore set built through
`overlayToIgnore` calls, every id `r` registered in it, and every event
whose propagation path contains an element with id `r`,
`isElementAllowed` returns `true` (the interaction is allowed), whatever
the target's ancestor chain is — in particular even when the target lies
entirely outside the overlay subtree. -/
theorem ignore_list_precedence (calls : List (List String)) (r : String)
    (p : List PathElem) (anc : List Nat) (parent : Nat)
    (hr : r ∈ builtIgnore calls) (hp : ∃ el ∈ p, el.id = r) :
    isElementAllowed (builtIgnore calls) parent
      { path := some p, targetAncestors := anc } = Except.ok true := by
  have hne : r ≠ "" := fun h => builtIgnore_no_empty calls (h ▸ hr)
  have hscan := scanIgnoreList_of_mem hr hne hp
  have hlen : (builtIgnore calls).length > 0 :=
    List.length_pos.mpr (List.ne_nil_of_mem hr)
  simp [isElementAllowed, hlen, hscan]

/-- C7 witness: `overlayToIgnore("menu-trigger")`, then a click whose path
holds the `menu-trigger` element while the target is outside the overlay
(empty ancestor chain). -/
theorem ignore_list_precedence_witness :
    isElementAllowed (builtIgnore [["menu-trigger"]]) 7
      { path := some [{ id := "menu-trigger" }], targetAncestors := [] } = Except.ok true :=
  ignore_list_precedence [["menu-trigger"]] "menu-trigger"
    [{ id := "menu-trigger" }] [] 7 (by decide)
    ⟨{ id := "menu-trigger" }, by decide, rfl⟩

/-- C8 counterexample: the claim quantifies over every event and every
ignore set, but with a nonempty ignore set and an event lacking `event.path`
the check throws instead of classifying the descendant target (container 5
is in its ancestor chain) as inside. -/
theorem containment_counterexample :
    isElementAllowed ["some-id"] 5 { path := none, targetAncestors := [5] } ≠
      Except.ok true :=
  fun h => Except.noConfusion h

/-- C8 (amended): for every event that exposes a propagation path, if the
overlay container occurs in the target's ancestor chain (the target is a
descendant), `isElementAllowed` returns `true` regardless of the contents
of the ignore set. -/
theorem containment_amended (ignore : List String) (p : List PathElem)
    (anc : List Nat) (parent : Nat) (hanc : parent ∈ anc) :
    isElementAllowed ignore parent
      { path := some p, targetAncestors := anc } = Except.ok true := by
  have hcont : isElementContained parent { path := some p, targetAncestors := anc } = true := by
    simpa [isElementContained] using walkParents_iff.mpr hanc
  by_cases hlen : ignore.length > 0
  · by_cases hscan : scanIgnoreList ignore p = true
    · simp [isElementAllowed, hlen, hscan]
    · simp [isElementAllowed, hlen, hscan, hcont]
  · simp [isElementAllowed, hlen, hcont]

/-- C8 witness: a target nested two levels inside container 3, with an
unrelated nonempty ignore set. -/
theorem containment_amended_witness :
    isElementAllowed ["anything"] 3
      { path := some [], targetAncestors := [9, 3] } = Except.ok true :=
  containment_amended ["anything"] [] [9, 3] 3 (by decide)

/-- C9: teardown is idempotent and unconditionally safe.  First conjunct:
on any quiescent instance (no pending feature timer) whose listener
registries are duplicate-free — as every registry the DOM maintains is —
running the disarm path `handleFeatures(false)` twice in a row and letting
the deferred callbacks fire yields the same observable state (attached
listeners, z-index, `opened`) as running it once.  Second conjunct: on an
instance whose features were never armed (no stored handlers, no z-index
snapshot), the disarm path leaves the observable state untouched — removing
listeners that were never added is a no-op, not an error. -/
theorem teardown_idempotent :
    (∀ s : OverlayState, s.pendingFeatureTimers = [] →
      s.selfClickListeners.Nodup → s.docClickListeners.Nodup →
      s.selfScrollListeners.Nodup → s.docScrollListeners.Nodup →
      s.docKeyupListeners.Nodup →
      observable (flushFeatureTimers (handleFeatures false (handleFeatures false s))) =
        observable (flushFeatureTimers (handleFeatures false s))) ∧
    (∀ s : OverlayState, s.pendingFeatureTimers = [] →
      s.preventCloseOutsideClick = none → s.onCaptureHtmlClick = none →
      s.escKeyHandler = none → s.initialZIndex = none →
      observable (flushFeatureTimers (handleFeatures false s)) = observable s) := by
  constructor
  · rintro ⟨ao, op, hid, pc, oc, esc, sz, iz, scl, dcl, ssl, dsl, dkl, pt, nh⟩
      hpt h1 h2 h3 h4 h5
    simp only at hpt h1 h2 h3 h4 h5
    subst hpt
    cases iz <;>
      simp [handleFeatures, handleZIndex, setStyleZIndex, flushFeatureTimers,
        runFeatureTimer, handleHidesOnOutsideClick, handleHidesOnOutsideEsc, observable,
        removeListener_idem h1, removeListener_idem h2, removeListener_idem h3,
        removeListener_idem h4, removeListener_idem h5]
  · rintro ⟨ao, op, hid, pc, oc, esc, sz, iz, scl, dcl, ssl, dsl, dkl, pt, nh⟩
      hpt hpc hoc hesc hiz
    simp only at hpt hpc hoc hesc hiz
    subst hpt; subst hpc; subst hoc; subst hesc; subst hiz
    simp [handleFeatures, handleZIndex, setStyleZIndex, flushFeatureTimers,
      runFeatureTimer, handleHidesOnOutsideClick, handleHidesOnOutsideEsc, observable,
      removeListener]

/-- C9 witness: double disarm on a freshly shown-and-flushed overlay, and a
single disarm on a never-armed fresh overlay. -/
theorem teardown_idempotent_witness :
    observable (flushFeatureTimers (handleFeatures false (handleFeatures false
        (flushFeatureTimers (showOverlay (initState false "")))))) =
      observable (flushFeatureTimers (handleFeatures false
        (flushFeatureTimers (showOverlay (initState false ""))))) ∧
    observable (flushFeatureTimers (handleFeatures false (initState false "auto"))) =
      observable (initState false "auto") :=
  ⟨teardown_idempotent.1 (flushFeatureTimers (showOverlay (initState false "")))
      (by decide) (by decide) (by decide) (by decide) (by decide) (by decide),
   teardown_idempotent.2 (initState false "auto") rfl rfl rfl rfl rfl⟩

/-- C10: when the interaction target is the overlay container itself, the
ancestor walk starts at the container's own `parentNode` and — the DOM tree
being acyclic, so the container is not among its own ancestors —
`isElementContained` returns false, and with an empty ignore set
`isElementAllowed` classifies the interaction as outside (`ok false`). -/
theorem target_is_container_outside (parent : Nat) (p? : Option (List PathElem))
    (anc : List Nat) (hanc : parent ∉ anc) :
    isElementContained parent { path := p?, targetAncestors := anc } = false ∧
    isElementAllowed [] parent { path := p?, targetAncestors := anc } =
      Except.ok false := by
  have hw : walkParents parent anc = false := walkParents_eq_false hanc
  refine ⟨by simpa [isElementContained] using hw, ?_⟩
  simp [isElementAllowed, isElementContained, hw]

/-- C10 witness: container 0 whose own ancestors are nodes 1 and 2. -/
theorem target_is_container_outside_witness :
    isElementContained 0 { path := none, targetAncestors := [1, 2] } = false ∧
    isElementAllowed [] 0 { path := none, targetAncestors := [1, 2] } =
      Except.ok false :=
  target_is_container_outside 0 none [1, 2] (by decide)

end MxOverlay
